import Mathlib

set_option maxRecDepth 100000

/-!
A shallow embedding of the `chaincfg` package of the godash repository
(files `params.go` and `genesis.go`), together with theorems checking the
natural-language specification of its network-parameter registry against
the embedded code.

Go package-level mutable maps are modelled by an explicit state record
(`ChainState`) threaded through the operations; Go maps are modelled by
membership lists (for the three set-valued indices) and an association
list with overwrite-on-insert (for the HD key index); Go byte and uint32
values are modelled by `Nat`; Go errors by an explicit error type.
-/

namespace Godash

namespace wire

/-- Modelled from the spec: the 4-byte network magic of the main network
(`wire.MainNet` of the `wire` package of this repository, which is not among the
given source files; the spec only requires that the three built-in magics
are pairwise distinct 4-byte values uniquely identifying each network). -/
def MainNet : Nat := 0xbd6b0cbf

/-- Modelled from the spec: the network magic used by the regression test
network (`wire.TestNet`); see `Godash.wire.MainNet`. -/
def TestNet : Nat := 0xdcb7c1fc

/-- Modelled from the spec: the network magic of the test network version 3
(`wire.TestNet3`); see `Godash.wire.MainNet`. -/
def TestNet3 : Nat := 0xffcae2ce

end wire

/-- A Go `[4]byte` value (used for the BIP32 HD extended-key magics). -/
structure Bytes4 where
  b0 : Nat
  b1 : Nat
  b2 : Nat
  b3 : Nat
deriving DecidableEq, Repr

/-- The Go slice `b[:]` of a `[4]byte` value. -/
def Bytes4.toSlice (b : Bytes4) : List Nat := [b.b0, b.b1, b.b2, b.b3]

/-- `chaincfg.Checkpoint`: a known good point in the block chain.
`Hash` is a `chainhash.Hash`, modelled as its 32-byte little-endian
byte sequence. -/
structure Checkpoint where
  Height : Int
  Hash : List Nat
deriving DecidableEq, Repr

/-- `chaincfg.DNSSeed`. -/
structure DNSSeed where
  Host : String
  HasFiltering : Bool
deriving DecidableEq, Repr

/-- `DNSSeed.String` returns the hostname of the DNS seed. -/
def DNSSeed.String (d : DNSSeed) : String := d.Host

/-- `chaincfg.ConsensusDeployment` (BIP0009 rule-change deployment). -/
structure ConsensusDeployment where
  BitNumber : Nat
  StartTime : Nat
  ExpireTime : Nat
deriving DecidableEq, Repr

/-- Deployment id `DeploymentTestDummy` (iota value 0). -/
def DeploymentTestDummy : Nat := 0

/-- Deployment id `DeploymentCSV` (iota value 1). -/
def DeploymentCSV : Nat := 1

/-- Deployment id `DeploymentSegwit` (iota value 2). -/
def DeploymentSegwit : Nat := 2

/-- `DefinedDeployments`: the number of defined deployments. -/
def DefinedDeployments : Nat := 3

/-- `wire.OutPoint`. -/
structure OutPoint where
  Hash : List Nat
  Index : Nat
deriving DecidableEq, Repr

/-- `wire.TxIn`. -/
structure TxIn where
  PreviousOutPoint : OutPoint
  SignatureScript : List Nat
  Sequence : Nat
deriving DecidableEq, Repr

/-- `wire.TxOut`. -/
structure TxOut where
  Value : Int
  PkScript : List Nat
deriving DecidableEq, Repr

/-- `wire.MsgTx` (transaction). -/
structure MsgTx where
  Version : Int
  TxIns : List TxIn
  TxOuts : List TxOut
  LockTime : Nat
deriving DecidableEq, Repr

/-- `wire.BlockHeader`.  `Timestamp` is the Unix time in seconds (the Go
code stores `time.Unix(sec, 0)` and serializes its 32-bit Unix seconds). -/
structure BlockHeader where
  Version : Int
  PrevBlock : List Nat
  MerkleRoot : List Nat
  Timestamp : Nat
  Bits : Nat
  Nonce : Nat
deriving DecidableEq, Repr

/-- `wire.MsgBlock`. -/
structure MsgBlock where
  Header : BlockHeader
  Transactions : List MsgTx
deriving DecidableEq, Repr

/-- One nanosecond units of Go `time.Duration`: `time.Second`. -/
def timeSecond : Int := 1000000000

/-- Go `time.Minute`. -/
def timeMinute : Int := 60 * timeSecond

/-- Go `time.Hour`. -/
def timeHour : Int := 60 * timeMinute

/-- `chaincfg.Params`: the parameters of one network.  Field types follow
the Go struct: single bytes and unsigned words become `Nat`, signed ints
become `Int`, `time.Duration` fields hold nanoseconds as `Int`, the
fixed-size deployment array becomes a list in index order
(`DeploymentTestDummy`, `DeploymentCSV`, `DeploymentSegwit`). -/
structure Params where
  Name : String
  Net : Nat
  DefaultPort : String
  DNSSeeds : List DNSSeed
  GenesisBlock : MsgBlock
  GenesisHash : List Nat
  PowLimit : Nat
  PowLimitBits : Nat
  BIP0034Height : Int
  BIP0065Height : Int
  BIP0066Height : Int
  CoinbaseMaturity : Nat
  SubsidyReductionInterval : Int
  TargetTimespan : Int
  TargetTimePerBlock : Int
  RetargetAdjustmentFactor : Int
  ReduceMinDifficulty : Bool
  MinDiffReductionTime : Int
  GenerateSupported : Bool
  Checkpoints : List Checkpoint
  RuleChangeActivationThreshold : Nat
  MinerConfirmationWindow : Nat
  Deployments : List ConsensusDeployment
  RelayNonStdTxs : Bool
  Bech32HRPSegwit : String
  PubKeyHashAddrID : Nat
  ScriptHashAddrID : Nat
  PrivateKeyID : Nat
  WitnessPubKeyHashAddrID : Nat
  WitnessScriptHashAddrID : Nat
  HDPrivateKeyID : Bytes4
  HDPublicKeyID : Bytes4
  HDCoinType : Nat
deriving DecidableEq, Repr

/-- `bigOne` of `params.go`. -/
def bigOne : Nat := 1

/-- `mainPowLimit`: 2^224 - 1. -/
def mainPowLimit : Nat := 2 ^ 224 - bigOne

/-- `regressionPowLimit`: 2^255 - 1. -/
def regressionPowLimit : Nat := 2 ^ 255 - bigOne

/-- `testNet3PowLimit`: 2^224 - 1. -/
def testNet3PowLimit : Nat := 2 ^ 224 - bigOne

/-- The numeric value of an ASCII hex digit, `none` for other characters
(`hex.Decode` digit handling used by `chainhash.NewHashFromStr`). -/
def hexDigitVal (c : Char) : Option Nat :=
  if '0' ≤ c ∧ c ≤ '9' then some (c.toNat - '0'.toNat)
  else if 'a' ≤ c ∧ c ≤ 'f' then some (c.toNat - 'a'.toNat + 10)
  else if 'A' ≤ c ∧ c ≤ 'F' then some (c.toNat - 'A'.toNat + 10)
  else none

/-- Hex-decode a character list two digits at a time (`hex.Decode`). -/
def hexDecode : List Char → Option (List Nat)
  | [] => some []
  | hi :: lo :: rest =>
    match hexDigitVal hi, hexDigitVal lo, hexDecode rest with
    | some h, some l, some bs => some ((h * 16 + l) :: bs)
    | _, _, _ => none
  | _ => none

/-- `chainhash.HashSize`: 32 bytes. -/
def HashSize : Nat := 32

/-- `chainhash.NewHashFromStr`: decodes a big-endian hex string of at most
64 digits (an odd length gets a leading 0), left-pads the bytes to 32 and
reverses them into the internal little-endian hash byte order; errors
(oversized input, non-hex digit) give `none`. -/
def NewHashFromStr (s : String) : Option (List Nat) :=
  if s.length > HashSize * 2 then none
  else
    let s2 := if s.length % 2 = 1 then ("0" ++ s) else s
    match hexDecode s2.data with
    | some bs => some ((List.replicate (HashSize - bs.length) 0 ++ bs).reverse)
    | none => none

/-- `chaincfg.newHashFromStr`: like `chainhash.NewHashFromStr` but panics
on malformed input (modelled by the empty list; it is only applied to
hard-coded valid hashes, where the panic branch is dead). -/
def newHashFromStr (s : String) : List Nat :=
  (NewHashFromStr s).getD []

/-- The registry errors of `params.go`: `ErrDuplicateNet` and
`ErrUnknownHDKeyID`. -/
inductive ChainError where
  | ErrDuplicateNet : ChainError
  | ErrUnknownHDKeyID : ChainError
deriving DecidableEq, Repr

deriving instance DecidableEq for Except

/-- The package-level mutable registry state of `params.go`:
`registeredNets`, `pubKeyHashAddrIDs`, `scriptHashAddrIDs`,
`bech32SegwitPrefixes` (Go sets, modelled by their membership lists) and
`hdPrivToPubKeyIDs` (a Go map from `[4]byte` to `[]byte`, modelled by an
association list with overwrite-on-insert). -/
structure ChainState where
  registeredNets : List Nat
  pubKeyHashAddrIDs : List Nat
  scriptHashAddrIDs : List Nat
  bech32SegwitPrefixes : List String
  hdPrivToPubKeyIDs : List (Bytes4 × List Nat)
deriving DecidableEq, Repr

/-- The initial state of the five package-level maps (`make(map[...])`). -/
def emptyState : ChainState :=
  { registeredNets := []
    pubKeyHashAddrIDs := []
    scriptHashAddrIDs := []
    bech32SegwitPrefixes := []
    hdPrivToPubKeyIDs := [] }

/-- Insertion into a Go set-valued map: a no-op when the key is present. -/
def setInsert (l : List Nat) (k : Nat) : List Nat :=
  if k ∈ l then l else l ++ [k]

/-- Insertion into a Go set of strings: a no-op when the key is present. -/
def strSetInsert (l : List String) (k : String) : List String :=
  if k ∈ l then l else l ++ [k]

/-- Go map assignment `m[k] = v`: overwrites the value of a present key. -/
def mapInsert (l : List (Bytes4 × List Nat)) (k : Bytes4) (v : List Nat) :
    List (Bytes4 × List Nat) :=
  match l with
  | [] => [(k, v)]
  | (k1, v1) :: t => if k1 = k then (k, v) :: t else (k1, v1) :: mapInsert t k v

/-- Go map read `m[k]` (with its `ok` flag folded into `Option`). -/
def mapLookup (l : List (Bytes4 × List Nat)) (k : Bytes4) : Option (List Nat) :=
  match l with
  | [] => none
  | (k1, v1) :: t => if k1 = k then some v1 else mapLookup t k

/-- `chaincfg.Register`: errors with `ErrDuplicateNet` when the magic is
already registered, otherwise records the magic and extends the four
derived indices with the pubkey-hash id, the script-hash id, the
HD-private-to-public mapping and the bech32 prefix followed by `"1"`. -/
def Register (s : ChainState) (params : Params) : ChainState × Option ChainError :=
  if params.Net ∈ s.registeredNets then
    (s, some ChainError.ErrDuplicateNet)
  else
    ({ registeredNets := setInsert s.registeredNets params.Net
       pubKeyHashAddrIDs := setInsert s.pubKeyHashAddrIDs params.PubKeyHashAddrID
       scriptHashAddrIDs := setInsert s.scriptHashAddrIDs params.ScriptHashAddrID
       bech32SegwitPrefixes :=
         strSetInsert s.bech32SegwitPrefixes (params.Bech32HRPSegwit ++ "1")
       hdPrivToPubKeyIDs :=
         mapInsert s.hdPrivToPubKeyIDs params.HDPrivateKeyID params.HDPublicKeyID.toSlice },
     none)

/-- `chaincfg.mustRegister`: panics (modelled by `none`) when `Register`
errors. -/
def mustRegister (s : ChainState) (params : Params) : Option ChainState :=
  match Register s params with
  | (s1, none) => some s1
  | (_, some _) => none

/-- `chaincfg.IsPubKeyHashAddrID`. -/
def IsPubKeyHashAddrID (s : ChainState) (id : Nat) : Bool :=
  s.pubKeyHashAddrIDs.contains id

/-- `chaincfg.IsScriptHashAddrID`. -/
def IsScriptHashAddrID (s : ChainState) (id : Nat) : Bool :=
  s.scriptHashAddrIDs.contains id

/-- ASCII lowering of one character: ASCII uppercase letters are lowered,
every other character is kept. -/
def asciiLowerChar (c : Char) : Char :=
  if 'A' ≤ c ∧ c ≤ 'Z' then Char.ofNat (c.toNat + 32) else c

/-- Go `strings.ToLower`, modelled on its ASCII domain.  Go lowers the
full Unicode range; on strings made of ASCII characters the Unicode
lowering coincides with `asciiLowerChar` (no ASCII character has a
non-ASCII lowercase form and no non-ASCII character lowers into ASCII), so
theorems about lookups through this function carry explicit ASCII
hypotheses on the strings involved.  Every built-in HRP is ASCII. -/
def goToLower (s : String) : String :=
  ⟨s.data.map asciiLowerChar⟩

/-- The string consists only of ASCII characters (the domain on which
`goToLower` agrees with Go `strings.ToLower`). -/
def isASCIIString (s : String) : Prop :=
  ∀ c ∈ s.data, c.toNat < 128

instance (s : String) : Decidable (isASCIIString s) := by
  unfold isASCIIString
  infer_instance

/-- `chaincfg.IsBech32SegwitPrefix`: lowercases its argument and looks it
up in the bech32 prefix set. -/
def IsBech32SegwitPrefix (s : ChainState) (pfx : String) : Bool :=
  s.bech32SegwitPrefixes.contains (goToLower pfx)

/-- The value of Go `var key [4]byte; copy(key[:], id)`: the first four
bytes of `id`, zero-filled when `id` is shorter. -/
def sliceToKey (id : List Nat) : Bytes4 :=
  { b0 := id.getD 0 0, b1 := id.getD 1 0, b2 := id.getD 2 0, b3 := id.getD 3 0 }

/-- `chaincfg.HDPrivateKeyToPublicKeyID`: rejects ids whose length is not
exactly 4 with `ErrUnknownHDKeyID`, otherwise looks the 4-byte key up in
the HD index, returning the mapped public-key id or `ErrUnknownHDKeyID`. -/
def HDPrivateKeyToPublicKeyID (s : ChainState) (id : List Nat) :
    Except ChainError (List Nat) :=
  if id.length ≠ 4 then Except.error ChainError.ErrUnknownHDKeyID
  else
    match mapLookup s.hdPrivToPubKeyIDs (sliceToKey id) with
    | none => Except.error ChainError.ErrUnknownHDKeyID
    | some pubBytes => Except.ok pubBytes

/-- `genesisCoinbaseTx` of `genesis.go`: the coinbase transaction shared by
the genesis blocks of the main, regression test and test (version 3)
networks. -/
def genesisCoinbaseTx : MsgTx :=
  { Version := 1
    TxIns := [
      { PreviousOutPoint := { Hash := List.replicate HashSize 0, Index := 0xffffffff }
        SignatureScript := [
          0x04, 0xff, 0xff, 0x00, 0x1d, 0x01, 0x04, 0x45,
          0x54, 0x68, 0x65, 0x20, 0x54, 0x69, 0x6d, 0x65,
          0x73, 0x20, 0x30, 0x33, 0x2f, 0x4a, 0x61, 0x6e,
          0x2f, 0x32, 0x30, 0x30, 0x39, 0x20, 0x43, 0x68,
          0x61, 0x6e, 0x63, 0x65, 0x6c, 0x6c, 0x6f, 0x72,
          0x20, 0x6f, 0x6e, 0x20, 0x62, 0x72, 0x69, 0x6e,
          0x6b, 0x20, 0x6f, 0x66, 0x20, 0x73, 0x65, 0x63,
          0x6f, 0x6e, 0x64, 0x20, 0x62, 0x61, 0x69, 0x6c,
          0x6f, 0x75, 0x74, 0x20, 0x66, 0x6f, 0x72, 0x20,
          0x62, 0x61, 0x6e, 0x6b, 0x73]
        Sequence := 0xffffffff }]
    TxOuts := [
      { Value := 0x12a05f200
        PkScript := [
          0x41, 0x04, 0x67, 0x8a, 0xfd, 0xb0, 0xfe, 0x55,
          0x48, 0x27, 0x19, 0x67, 0xf1, 0xa6, 0x71, 0x30,
          0xb7, 0x10, 0x5c, 0xd6, 0xa8, 0x28, 0xe0, 0x39,
          0x09, 0xa6, 0x79, 0x62, 0xe0, 0xea, 0x1f, 0x61,
          0xde, 0xb6, 0x49, 0xf6, 0xbc, 0x3f, 0x4c, 0xef,
          0x38, 0xc4, 0xf3, 0x55, 0x04, 0xe5, 0x1e, 0xc1,
          0x12, 0xde, 0x5c, 0x38, 0x4d, 0xf7, 0xba, 0x0b,
          0x8d, 0x57, 0x8a, 0x4c, 0x70, 0x2b, 0x6b, 0xf1,
          0x1d, 0x5f, 0xac] }]
    LockTime := 0 }

/-- `genesisHash`: the hard-coded hash of the mainnet genesis block, in
internal (little-endian) byte order. -/
def genesisHash : List Nat := [
  0xb6, 0x7a, 0x40, 0xf3, 0xcd, 0x58, 0x04, 0x43,
  0x7a, 0x10, 0x8f, 0x10, 0x55, 0x33, 0x73, 0x9c,
  0x37, 0xe6, 0x22, 0x9b, 0xc1, 0xad, 0xca, 0xb3,
  0x85, 0x14, 0x0b, 0x59, 0xfd, 0x0f, 0x00, 0x00]

/-- `genesisMerkleRoot`: the hash of the first transaction of the mainnet
genesis block. -/
def genesisMerkleRoot : List Nat := [
  0xc7, 0x62, 0xa6, 0x56, 0x7f, 0x3c, 0xc0, 0x92,
  0xf0, 0x68, 0x4b, 0xb6, 0x2b, 0x7e, 0x00, 0xa8,
  0x48, 0x90, 0xb9, 0x90, 0xf0, 0x7c, 0xc7, 0x1a,
  0x6b, 0xb5, 0x8d, 0x64, 0xb9, 0x8e, 0x02, 0xe0]

/-- `genesisBlock`: the mainnet genesis block (version 1, all-zero
previous hash, `genesisMerkleRoot`, timestamp `0x52DB2D02`, bits
`0x1e0ffff0`, nonce `0x121b062`). -/
def genesisBlock : MsgBlock :=
  { Header := {
      Version := 1
      PrevBlock := List.replicate HashSize 0
      MerkleRoot := genesisMerkleRoot
      Timestamp := 0x52DB2D02
      Bits := 0x1e0ffff0
      Nonce := 0x121b062 }
    Transactions := [genesisCoinbaseTx] }

/-- `regTestGenesisHash`. -/
def regTestGenesisHash : List Nat := [
  0x2e, 0x3d, 0xf2, 0x3e, 0xec, 0x5c, 0xd6, 0xa8,
  0x6e, 0xdd, 0x50, 0x95, 0x39, 0x02, 0x8e, 0x2c,
  0x3a, 0x3d, 0xc0, 0x53, 0x15, 0xeb, 0x28, 0xf2,
  0xba, 0xa4, 0x32, 0x18, 0xca, 0x08, 0x00, 0x00]

/-- `regTestGenesisMerkleRoot`: same as the mainnet merkle root. -/
def regTestGenesisMerkleRoot : List Nat := genesisMerkleRoot

/-- `regTestGenesisBlock`. -/
def regTestGenesisBlock : MsgBlock :=
  { Header := {
      Version := 1
      PrevBlock := List.replicate HashSize 0
      MerkleRoot := regTestGenesisMerkleRoot
      Timestamp := 1417713337
      Bits := 0x207fffff
      Nonce := 1096447 }
    Transactions := [genesisCoinbaseTx] }

/-- `testNet3GenesisHash`. -/
def testNet3GenesisHash : List Nat := [
  0x2c, 0xbc, 0xf8, 0x3b, 0x62, 0x91, 0x3d, 0x56,
  0xf6, 0x05, 0xc0, 0xe5, 0x81, 0xa4, 0x88, 0x72,
  0x83, 0x94, 0x28, 0xc9, 0x2e, 0x5e, 0xb7, 0x6c,
  0xd7, 0xad, 0x94, 0xbc, 0xaf, 0x0b, 0x00, 0x00]

/-- `testNet3GenesisMerkleRoot`: same as the mainnet merkle root. -/
def testNet3GenesisMerkleRoot : List Nat := genesisMerkleRoot

/-- `testNet3GenesisBlock`. -/
def testNet3GenesisBlock : MsgBlock :=
  { Header := {
      Version := 1
      PrevBlock := List.replicate HashSize 0
      MerkleRoot := testNet3GenesisMerkleRoot
      Timestamp := 1390666206
      Bits := 0x1e0ffff0
      Nonce := 0xE627C9C3 }
    Transactions := [genesisCoinbaseTx] }

/-- `MainNetParams`: the parameters of the main network.  Note that the
source sets `TargetTimespan` to the bare product `24 * 60 * 60` (without a
`time.Second` factor), which is kept as written. -/
def MainNetParams : Params :=
  { Name := "mainnet"
    Net := wire.MainNet
    DefaultPort := "9999"
    DNSSeeds := [
      { Host := "dnsseed.dash.org", HasFiltering := true },
      { Host := "dnsseed.dashdot.io", HasFiltering := true },
      { Host := "dnsseed.masternode.io", HasFiltering := false },
      { Host := "dnsseed.dashpay.io", HasFiltering := true }]
    GenesisBlock := genesisBlock
    GenesisHash := genesisHash
    PowLimit := mainPowLimit
    PowLimitBits := 0x1d00ffff
    BIP0034Height := 1
    BIP0065Height := 388381
    BIP0066Height := 363725
    CoinbaseMaturity := 100
    SubsidyReductionInterval := 210240
    TargetTimespan := 24 * 60 * 60
    TargetTimePerBlock := timeSecond * 150
    RetargetAdjustmentFactor := 4
    ReduceMinDifficulty := false
    MinDiffReductionTime := 0
    GenerateSupported := false
    Checkpoints := [
      { Height := 4991, Hash := newHashFromStr ("000000003b01809551952460744d5dbb8fcbd6cbae3c220267bf7fa43f837367") },
      { Height := 9918, Hash := newHashFromStr ("00000000213e229f332c0ffbe34defdaa9e74de87f2d8d1f01af8d121c3c170b") },
      { Height := 16912, Hash := newHashFromStr ("00000000075c0d10371d55a60634da70f197548dbbfa4123e12abfcbc5738af9") },
      { Height := 23912, Hash := newHashFromStr ("0000000000335eac6703f3b1732ec8b2f89c3ba3a7889e5767b090556bb9a276") },
      { Height := 35457, Hash := newHashFromStr ("0000000000b0ae211be59b048df14820475ad0dd53b9ff83b010f71a77342d9f") },
      { Height := 45479, Hash := newHashFromStr ("000000000063d411655d590590e16960f15ceea4257122ac430c6fbe39fbf02d") },
      { Height := 55895, Hash := newHashFromStr ("0000000000ae4c53a43639a4ca027282f69da9c67ba951768a20415b6439a2d7") },
      { Height := 68899, Hash := newHashFromStr ("0000000000194ab4d3d9eeb1f2f792f21bb39ff767cb547fe977640f969d77b7") },
      { Height := 74619, Hash := newHashFromStr ("000000000011d28f38f05d01650a502cc3f4d0e793fbc26e2a2ca71f07dc3842") },
      { Height := 75095, Hash := newHashFromStr ("0000000000193d12f6ad352a9996ee58ef8bdc4946818a5fec5ce99c11b87f0d") },
      { Height := 88805, Hash := newHashFromStr ("00000000001392f1652e9bf45cd8bc79dc60fe935277cd11538565b4a94fa85f") },
      { Height := 107996, Hash := newHashFromStr ("00000000000a23840ac16115407488267aa3da2b9bc843e301185b7d17e4dc40") },
      { Height := 137993, Hash := newHashFromStr ("00000000000cf69ce152b1bffdeddc59188d7a80879210d6e5c9503011929c3c") },
      { Height := 167996, Hash := newHashFromStr ("000000000009486020a80f7f2cc065342b0c2fb59af5e090cd813dba68ab0fed") },
      { Height := 207992, Hash := newHashFromStr ("00000000000d85c22be098f74576ef00b7aa00c05777e966aff68a270f1e01a5") },
      { Height := 312645, Hash := newHashFromStr ("0000000000059dcb71ad35a9e40526c44e7aae6c99169a9e7017b7d84b1c2daf") },
      { Height := 407452, Hash := newHashFromStr ("000000000003c6a87e73623b9d70af7cd908ae22fee466063e4ffc20be1d2dbc") },
      { Height := 523412, Hash := newHashFromStr ("000000000000e54f036576a10597e0e42cc22a5159ce572f999c33975e121d4d") },
      { Height := 523930, Hash := newHashFromStr ("0000000000000bccdb11c2b1cfb0ecab452abf267d89b7f46eaf2d54ce6e652c") },
      { Height := 750000, Hash := newHashFromStr ("00000000000000b4181bbbdddbae464ce11fede5d0292fb63fdede1e7c8ab21c") }]
    RuleChangeActivationThreshold := 1916
    MinerConfirmationWindow := 2016
    Deployments := [
      { BitNumber := 28, StartTime := 1199145601, ExpireTime := 1230767999 },
      { BitNumber := 0, StartTime := 1486252800, ExpireTime := 1517788800 },
      { BitNumber := 1, StartTime := 1508025600, ExpireTime := 1539561600 }]
    RelayNonStdTxs := false
    Bech32HRPSegwit := "bc"
    PubKeyHashAddrID := 0x4c
    ScriptHashAddrID := 0x10
    PrivateKeyID := 0xcc
    WitnessPubKeyHashAddrID := 0x06
    WitnessScriptHashAddrID := 0x0A
    HDPrivateKeyID := { b0 := 0x04, b1 := 0x88, b2 := 0xad, b3 := 0xe4 }
    HDPublicKeyID := { b0 := 0x04, b1 := 0x88, b2 := 0xb2, b3 := 0x1e }
    HDCoinType := 5 }

/-- `RegressionNetParams`: the parameters of the regression test network.
Its `WitnessPubKeyHashAddrID` and `WitnessScriptHashAddrID` fields are not
set in the source (Go zero value 0). -/
def RegressionNetParams : Params :=
  { Name := "regtest"
    Net := wire.TestNet
    DefaultPort := "19994"
    DNSSeeds := []
    GenesisBlock := regTestGenesisBlock
    GenesisHash := regTestGenesisHash
    PowLimit := regressionPowLimit
    PowLimitBits := 0x207fffff
    CoinbaseMaturity := 100
    BIP0034Height := 100000000
    BIP0065Height := 1351
    BIP0066Height := 1251
    SubsidyReductionInterval := 150
    TargetTimespan := timeHour * 24 * 1
    TargetTimePerBlock := timeSecond * 150
    RetargetAdjustmentFactor := 4
    ReduceMinDifficulty := true
    MinDiffReductionTime := timeMinute * 20
    GenerateSupported := true
    Checkpoints := []
    RuleChangeActivationThreshold := 108
    MinerConfirmationWindow := 144
    Deployments := [
      { BitNumber := 28, StartTime := 0, ExpireTime := 9223372036854775807 },
      { BitNumber := 0, StartTime := 0, ExpireTime := 9223372036854775807 },
      { BitNumber := 1, StartTime := 0, ExpireTime := 9223372036854775807 }]
    RelayNonStdTxs := true
    Bech32HRPSegwit := "tb"
    PubKeyHashAddrID := 0x8c
    ScriptHashAddrID := 0x13
    PrivateKeyID := 0xef
    WitnessPubKeyHashAddrID := 0
    WitnessScriptHashAddrID := 0
    HDPrivateKeyID := { b0 := 0x04, b1 := 0x35, b2 := 0x83, b3 := 0x94 }
    HDPublicKeyID := { b0 := 0x04, b1 := 0x35, b2 := 0x87, b3 := 0xcf }
    HDCoinType := 1 }

/-- `TestNet3Params`: the parameters of the test network (version 3). -/
def TestNet3Params : Params :=
  { Name := "testnet3"
    Net := wire.TestNet3
    DefaultPort := "19999"
    DNSSeeds := [
      { Host := "testnet-seed.dashdot.io", HasFiltering := true },
      { Host := "test.dnsseed.masternode.io", HasFiltering := true }]
    GenesisBlock := testNet3GenesisBlock
    GenesisHash := testNet3GenesisHash
    PowLimit := testNet3PowLimit
    PowLimitBits := 0x1d00ffff
    BIP0034Height := 1
    BIP0065Height := 581885
    BIP0066Height := 330776
    CoinbaseMaturity := 100
    SubsidyReductionInterval := 210240
    TargetTimespan := timeHour * 24 * 1
    TargetTimePerBlock := timeSecond * 150
    RetargetAdjustmentFactor := 4
    ReduceMinDifficulty := true
    MinDiffReductionTime := timeMinute * 20
    GenerateSupported := false
    Checkpoints := [
      { Height := 261, Hash := newHashFromStr ("00000c26026d0815a7e2ce4fa270775f61403c040647ff2c3091f99e894a4618") },
      { Height := 1999, Hash := newHashFromStr ("00000052e538d27fa53693efe6fb6892a0c1d26c0235f599171c48a3cce553b1") },
      { Height := 2999, Hash := newHashFromStr ("0000024bc3f4f4cb30d29827c13d921ad77d2c6072e586c7f60d83c2722cdcc5") }]
    RuleChangeActivationThreshold := 1512
    MinerConfirmationWindow := 2016
    Deployments := [
      { BitNumber := 28, StartTime := 1199145601, ExpireTime := 1230767999 },
      { BitNumber := 0, StartTime := 1456790400, ExpireTime := 1493596800 },
      { BitNumber := 1, StartTime := 1462060800, ExpireTime := 1493596800 }]
    RelayNonStdTxs := true
    Bech32HRPSegwit := "tb"
    PubKeyHashAddrID := 0x8c
    ScriptHashAddrID := 0x13
    WitnessPubKeyHashAddrID := 0x03
    WitnessScriptHashAddrID := 0x28
    PrivateKeyID := 0xef
    HDPrivateKeyID := { b0 := 0x04, b1 := 0x35, b2 := 0x83, b3 := 0x94 }
    HDPublicKeyID := { b0 := 0x04, b1 := 0x35, b2 := 0x87, b3 := 0xcf }
    HDCoinType := 1 }

/-- The package `init` function: registers the three built-in networks in
order (`mustRegister` panics, modelled by `none`, when one fails). -/
def initState : Option ChainState :=
  (mustRegister emptyState MainNetParams).bind
    (fun s => mustRegister s TestNet3Params) |>.bind
    (fun s => mustRegister s RegressionNetParams)

/-- The registry state after package initialization (falling back to the
empty state on an impossible `init` panic). -/
def defaultState : ChainState := initState.getD emptyState

/-- 2^32, the modulus of the 32-bit word arithmetic below. -/
def w32 : Nat := 4294967296

/-- Serialize a `Nat` as 4 little-endian bytes (the fixed-width encoding
used for the uint32 header fields). -/
def u32le (n : Nat) : List Nat :=
  [n % 256, (n >>> 8) % 256, (n >>> 16) % 256, (n >>> 24) % 256]

/-- Serialize an `Int` as its 32-bit value modulo 2^32 in 4
little-endian bytes (the int32 version header field). -/
def i32le (v : Int) : List Nat :=
  u32le (v % (2 ^ 32 : Nat)).toNat

/-- Serialize a `Nat` as 8 big-endian bytes (the SHA-256 length field). -/
def u64be (n : Nat) : List Nat :=
  [(n >>> 56) % 256, (n >>> 48) % 256, (n >>> 40) % 256, (n >>> 32) % 256,
   (n >>> 24) % 256, (n >>> 16) % 256, (n >>> 8) % 256, n % 256]

/-- Serialize a `Nat` as 4 big-endian bytes (SHA-256 digest words). -/
def u32be (n : Nat) : List Nat :=
  [(n >>> 24) % 256, (n >>> 16) % 256, (n >>> 8) % 256, n % 256]

/-- Modelled from the spec: the fixed-layout 80-byte serialization of a
block header — version, previous hash, merkle root, timestamp, bits and
nonce, the integer fields as 32-bit little-endian words (the
`writeBlockHeader` wire format; the `wire` package is not among the given
source files). -/
def serializeBlockHeader (h : BlockHeader) : List Nat :=
  i32le h.Version ++ h.PrevBlock ++ h.MerkleRoot ++
    u32le h.Timestamp ++ u32le h.Bits ++ u32le h.Nonce

/-- Rotate a 32-bit word right by n bit positions. -/
def rotr32 (n x : Nat) : Nat :=
  ((x >>> n) ||| (x <<< (32 - n))) % w32

/-- SHA-256 `Ch(x,y,z)` (with `¬x` as xor against the 32-bit mask). -/
def shaCh (x y z : Nat) : Nat :=
  (x &&& y) ^^^ ((x ^^^ 0xffffffff) &&& z)

/-- SHA-256 `Maj(x,y,z)`. -/
def shaMaj (x y z : Nat) : Nat :=
  (x &&& y) ^^^ (x &&& z) ^^^ (y &&& z)

/-- SHA-256 `Σ0`. -/
def bigSigma0 (x : Nat) : Nat := rotr32 2 x ^^^ rotr32 13 x ^^^ rotr32 22 x

/-- SHA-256 `Σ1`. -/
def bigSigma1 (x : Nat) : Nat := rotr32 6 x ^^^ rotr32 11 x ^^^ rotr32 25 x

/-- SHA-256 `σ0`. -/
def smallSigma0 (x : Nat) : Nat := rotr32 7 x ^^^ rotr32 18 x ^^^ (x >>> 3)

/-- SHA-256 `σ1`. -/
def smallSigma1 (x : Nat) : Nat := rotr32 17 x ^^^ rotr32 19 x ^^^ (x >>> 10)

/-- The 64 SHA-256 round constants (in decimal). -/
def sha256K : List Nat := [
  1116352408, 1899447441, 3049323471, 3921009573, 961987163,
  1508970993, 2453635748, 2870763221, 3624381080, 310598401,
  607225278, 1426881987, 1925078388, 2162078206, 2614888103,
  3248222580, 3835390401, 4022224774, 264347078, 604807628,
  770255983, 1249150122, 1555081692, 1996064986, 2554220882,
  2821834349, 2952996808, 3210313671, 3336571891, 3584528711,
  113926993, 338241895, 666307205, 773529912, 1294757372,
  1396182291, 1695183700, 1986661051, 2177026350, 2456956037,
  2730485921, 2820302411, 3259730800, 3345764771, 3516065817,
  3600352804, 4094571909, 275423344, 430227734, 506948616,
  659060556, 883997877, 958139571, 1322822218, 1537002063,
  1747873779, 1955562222, 2024104815, 2227730452, 2361852424,
  2428436474, 2756734187, 3204031479, 3329325298]

/-- The eight initial SHA-256 state words (in decimal). -/
def sha256H0 : List Nat := [
  1779033703, 3144134277, 1013904242, 2773480762,
  1359893119, 2600822924, 528734635, 1541459225]

/-- SHA-256 message padding: a `0x80` byte, zeros to 56 mod 64, then the
bit length as 8 big-endian bytes. -/
def sha256Pad (msg : List Nat) : List Nat :=
  msg ++ [0x80] ++ List.replicate ((119 - msg.length % 64) % 64) 0 ++
    u64be (msg.length * 8)

/-- Group bytes into 32-bit big-endian words. -/
def bytesToWords : List Nat → List Nat
  | a :: b :: c :: d :: rest => (((a * 256 + b) * 256 + c) * 256 + d) :: bytesToWords rest
  | _ => []

/-- Split a byte list into 64-byte blocks (the first argument is fuel,
instantiated with the list length). -/
def chunk64 : Nat → List Nat → List (List Nat)
  | 0, _ => []
  | _, [] => []
  | n + 1, l => l.take 64 :: chunk64 n (l.drop 64)

/-- Extend the 16-word message schedule to 64 words; `acc` holds the words
produced so far in reverse order. -/
def extendSchedule : Nat → List Nat → List Nat
  | 0, acc => acc
  | n + 1, acc =>
    extendSchedule n
      (((smallSigma1 (acc.getD 1 0) + acc.getD 6 0 +
         smallSigma0 (acc.getD 14 0) + acc.getD 15 0) % w32) :: acc)

/-- The 64-word message schedule of one block. -/
def sha256Schedule (block : List Nat) : List Nat :=
  (extendSchedule 48 (bytesToWords block).reverse).reverse

/-- One SHA-256 round: the working state is `[a,b,c,d,e,f,g,h]` and the
second argument is the pair of the round constant and the schedule word. -/
def sha256Round : List Nat → Nat × Nat → List Nat
  | [a, b, c, d, e, f, g, h], (k, w) =>
    let t1 := (h + bigSigma1 e + shaCh e f g + k + w) % w32
    let t2 := (bigSigma0 a + shaMaj a b c) % w32
    [(t1 + t2) % w32, a, b, c, (d + t1) % w32, e, f, g]
  | s, _ => s

/-- SHA-256 compression of one 64-byte block into the running hash. -/
def sha256Block (h : List Nat) (block : List Nat) : List Nat :=
  let v := (sha256K.zip (sha256Schedule block)).foldl sha256Round h
  List.zipWith (fun x y => (x + y) % w32) h v

/-- SHA-256 of a byte list, as the 32 digest bytes. -/
def sha256 (msg : List Nat) : List Nat :=
  let padded := sha256Pad msg
  ((chunk64 padded.length padded).foldl sha256Block sha256H0).flatMap u32be

/-- Modelled from the spec: the double-round cryptographic hash of the network
function (`chainhash.DoubleHashH`, SHA-256 applied twice; the `chainhash`
package is not among the given source files). -/
def doubleHash (msg : List Nat) : List Nat :=
  sha256 (sha256 msg)

/-- Modelled from the spec: the genesis self-check — recomputing the block
hash of the mainnet genesis header via the double-round hash of its
80-byte serialization and comparing it with the hardcoded expected hash
(no such routine appears in the given source files; `init` of `params.go`
only registers the three built-in networks). -/
def genesisSelfCheck : Bool :=
  doubleHash (serializeBlockHeader genesisBlock.Header) == genesisHash

/-- A custom network parameter value, as an integrator would assemble one
before calling `Register`: `MainNetParams` with the identity fields
replaced. -/
def customParams (net : Nat) (hrp : String) (priv pub : Bytes4) : Params :=
  { MainNetParams with
      Net := net
      Bech32HRPSegwit := hrp
      HDPrivateKeyID := priv
      HDPublicKeyID := pub }

/-- A custom network binding the HD private magic `⟨9,9,9,9⟩` to the
public magic `⟨1,1,1,1⟩`. -/
def paramsHDFirst : Params :=
  customParams 1001 ("aa") { b0 := 9, b1 := 9, b2 := 9, b3 := 9 } { b0 := 1, b1 := 1, b2 := 1, b3 := 1 }

/-- A second custom network rebinding the same HD private magic
`⟨9,9,9,9⟩` to the different public magic `⟨2,2,2,2⟩`. -/
def paramsHDSecond : Params :=
  customParams 1002 ("ab") { b0 := 9, b1 := 9, b2 := 9, b3 := 9 } { b0 := 2, b1 := 2, b2 := 2, b3 := 2 }

/-- A custom network whose bech32 human-readable part contains uppercase
ASCII letters. -/
def paramsUpperHRP : Params :=
  customParams 1003 ("XY") { b0 := 8, b1 := 8, b2 := 8, b3 := 8 } { b0 := 8, b1 := 8, b2 := 8, b3 := 8 }

/-- A custom network whose single-byte address ids coincide with the
already-registered testnet3/regtest ids. -/
def paramsFreshMagic : Params :=
  { customParams 1004 ("xy") { b0 := 5, b1 := 5, b2 := 5, b3 := 5 } { b0 := 6, b1 := 6, b2 := 6, b3 := 6 } with
      PubKeyHashAddrID := 0x8c
      ScriptHashAddrID := 0x13 }

/-- The four derived indices contain the entries of `ps`: its pubkey-hash
id, its script-hash id, its bech32 prefix followed by the separator, and
its HD private-to-public key mapping. -/
def indicesContain (s : ChainState) (ps : Params) : Prop :=
  IsPubKeyHashAddrID s ps.PubKeyHashAddrID = true ∧
  IsScriptHashAddrID s ps.ScriptHashAddrID = true ∧
  (ps.Bech32HRPSegwit ++ "1") ∈ s.bech32SegwitPrefixes ∧
  mapLookup s.hdPrivToPubKeyIDs ps.HDPrivateKeyID = some ps.HDPublicKeyID.toSlice

instance (s : ChainState) (ps : Params) : Decidable (indicesContain s ps) := by
  unfold indicesContain
  infer_instance

/-! ## Helper lemmas about the registry map operations -/

theorem setInsert_contains_self (l : List Nat) (k : Nat) :
    (setInsert l k).contains k = true := by
  unfold setInsert
  split
  · next h => simpa using h
  · simp

theorem setInsert_contains_mono (l : List Nat) (k x : Nat)
    (h : l.contains x = true) : (setInsert l k).contains x = true := by
  unfold setInsert
  split
  · exact h
  · simp at h ⊢
    exact Or.inl h

theorem mem_strSetInsert_self (l : List String) (k : String) :
    k ∈ strSetInsert l k := by
  unfold strSetInsert
  split
  · next h => exact h
  · simp

theorem mem_strSetInsert_mono (l : List String) (k x : String)
    (h : x ∈ l) : x ∈ strSetInsert l k := by
  unfold strSetInsert
  split
  · exact h
  · simp
    exact Or.inl h

theorem mapLookup_mapInsert (l : List (Bytes4 × List Nat)) (k2 k1 : Bytes4)
    (v : List Nat) :
    mapLookup (mapInsert l k2 v) k1 =
      if k2 = k1 then some v else mapLookup l k1 := by
  induction l with
  | nil => simp [mapInsert, mapLookup]
  | cons hd t ih =>
    obtain ⟨hk, hv⟩ := hd
    by_cases h1 : hk = k2
    · subst h1
      by_cases h2 : hk = k1 <;> simp [mapInsert, mapLookup, h2]
    · by_cases h2 : hk = k1
      · subst h2
        have h3 : ¬ k2 = hk := fun h => h1 h.symm
        simp [mapInsert, mapLookup, h1, h3]
      · simp [mapInsert, mapLookup, h1, h2, ih]

theorem sliceToKey_toSlice (b : Bytes4) : sliceToKey b.toSlice = b := rfl

/-! ## Claim theorems -/

/-- Claim C1: for every state and every parameter value whose network magic
is already registered, `Register` returns `ErrDuplicateNet` and returns the
state unchanged — in particular the registered-magic set and all four
derived indices are identical before and after the failed call. -/
theorem register_duplicate_preserves_state (s : ChainState) (ps : Params)
    (h : ps.Net ∈ s.registeredNets) :
    Register s ps = (s, some ChainError.ErrDuplicateNet) ∧
    (Register s ps).1.registeredNets = s.registeredNets ∧
    (Register s ps).1.pubKeyHashAddrIDs = s.pubKeyHashAddrIDs ∧
    (Register s ps).1.scriptHashAddrIDs = s.scriptHashAddrIDs ∧
    (Register s ps).1.bech32SegwitPrefixes = s.bech32SegwitPrefixes ∧
    (Register s ps).1.hdPrivToPubKeyIDs = s.hdPrivToPubKeyIDs := by
  simp [Register, h]

/-- Witness for C1: re-registering `MainNetParams` on the
post-initialization state fails with `ErrDuplicateNet` and keeps the state. -/
theorem register_duplicate_preserves_state_witness :
    Register defaultState MainNetParams =
      (defaultState, some ChainError.ErrDuplicateNet) :=
  (register_duplicate_preserves_state defaultState MainNetParams (by decide)).1

/-- Claim C6: the checkpoint heights of the built-in parameter sets are
strictly increasing; the regression test network has no checkpoints. -/
theorem checkpoints_strictly_increasing :
    List.Chain' (fun a b => a < b) (MainNetParams.Checkpoints.map Checkpoint.Height) ∧
    List.Chain' (fun a b => a < b) (TestNet3Params.Checkpoints.map Checkpoint.Height) ∧
    RegressionNetParams.Checkpoints = [] := by
  refine ⟨?_, ?_, rfl⟩
  · have h : MainNetParams.Checkpoints.map Checkpoint.Height =
        [4991, 9918, 16912, 23912, 35457, 45479, 55895, 68899, 74619, 75095,
         88805, 107996, 137993, 167996, 207992, 312645, 407452, 523412,
         523930, 750000] := rfl
    rw [h]
    norm_num [List.chain'_cons]
  · have h : TestNet3Params.Checkpoints.map Checkpoint.Height =
        [261, 1999, 2999] := rfl
    rw [h]
    norm_num [List.chain'_cons]

/-- Claim C7: in each built-in parameter set, every one of the three
deployment entries (TestDummy, CSV, Segwit) has a start time that does not
exceed its expire time. -/
theorem deployments_start_le_expire :
    ([MainNetParams, RegressionNetParams, TestNet3Params].all fun ps =>
      ps.Deployments.length == DefinedDeployments &&
        ps.Deployments.all fun d => decide (d.StartTime ≤ d.ExpireTime)) = true := by
  decide

/-- Claim C9: freshness of the network magic is the only precondition of
`Register` — any parameter value with an unregistered magic registers
successfully, whatever its other identifiers; the built-in regtest and
testnet3 parameter sets share pubkey-hash id 0x8c and script-hash id 0x13,
and after initialization both ids test positive with no indication of the
matching network. -/
theorem register_fresh_magic_succeeds (s : ChainState) (ps : Params)
    (h : ps.Net ∉ s.registeredNets) :
    (Register s ps).2 = none ∧
    IsPubKeyHashAddrID (Register s ps).1 ps.PubKeyHashAddrID = true ∧
    IsScriptHashAddrID (Register s ps).1 ps.ScriptHashAddrID = true ∧
    (RegressionNetParams.PubKeyHashAddrID = 0x8c ∧
     TestNet3Params.PubKeyHashAddrID = 0x8c) ∧
    (RegressionNetParams.ScriptHashAddrID = 0x13 ∧
     TestNet3Params.ScriptHashAddrID = 0x13) ∧
    IsPubKeyHashAddrID defaultState 0x8c = true ∧
    IsScriptHashAddrID defaultState 0x13 = true := by
  refine ⟨?_, ?_, ?_, by decide, by decide, by decide, by decide⟩
  · simp [Register, h]
  · show ((if ps.Net ∈ s.registeredNets then _ else _ : ChainState × Option ChainError)).1.pubKeyHashAddrIDs.contains _ = true
    rw [if_neg h]
    exact setInsert_contains_self _ _
  · show ((if ps.Net ∈ s.registeredNets then _ else _ : ChainState × Option ChainError)).1.scriptHashAddrIDs.contains _ = true
    rw [if_neg h]
    exact setInsert_contains_self _ _

/-- Witness for C9: a custom network reusing pubkey-hash id 0x8c and
script-hash id 0x13 still registers on the post-initialization state. -/
theorem register_fresh_magic_succeeds_witness :
    (Register defaultState paramsFreshMagic).2 = none ∧
    IsPubKeyHashAddrID (Register defaultState paramsFreshMagic).1
      paramsFreshMagic.PubKeyHashAddrID = true ∧
    IsScriptHashAddrID (Register defaultState paramsFreshMagic).1
      paramsFreshMagic.ScriptHashAddrID = true ∧
    (RegressionNetParams.PubKeyHashAddrID = 0x8c ∧
     TestNet3Params.PubKeyHashAddrID = 0x8c) ∧
    (RegressionNetParams.ScriptHashAddrID = 0x13 ∧
     TestNet3Params.ScriptHashAddrID = 0x13) ∧
    IsPubKeyHashAddrID defaultState 0x8c = true ∧
    IsScriptHashAddrID defaultState 0x13 = true :=
  register_fresh_magic_succeeds defaultState paramsFreshMagic (by decide)

/-- Claim C10: the three built-in parameter sets carry pairwise distinct
network magics, so the three `mustRegister` calls of `init` all succeed and
the panic branch is unreachable during initialization. -/
theorem init_succeeds :
    MainNetParams.Net ≠ TestNet3Params.Net ∧
    MainNetParams.Net ≠ RegressionNetParams.Net ∧
    TestNet3Params.Net ≠ RegressionNetParams.Net ∧
    initState = some defaultState ∧
    initState.isSome = true := by
  decide

/-- Counterexample to claim C2: registering `paramsHDFirst` succeeds, but a
subsequent successful `Register` of `paramsHDSecond` — which reuses the
same HD private magic with a different public magic — overwrites the HD
index entry, so the entries of `paramsHDFirst` are no longer all present. -/
theorem register_hd_overwrite_counterexample :
    (Register emptyState paramsHDFirst).2 = none ∧
    (Register (Register emptyState paramsHDFirst).1 paramsHDSecond).2 = none ∧
    mapLookup (Register (Register emptyState paramsHDFirst).1 paramsHDSecond).1.hdPrivToPubKeyIDs
        paramsHDFirst.HDPrivateKeyID ≠ some paramsHDFirst.HDPublicKeyID.toSlice ∧
    ¬ indicesContain (Register (Register emptyState paramsHDFirst).1 paramsHDSecond).1
        paramsHDFirst := by
  decide

/-- Claim C2 (amended): immediately after `Register ps` succeeds all four
derived indices contain the entries of `ps`, and this containment is
preserved by every subsequent `Register` call whose parameters do not
rebind the same HD private magic to a different HD public magic (the HD
index is a map whose insert overwrites, so a later network reusing the
private magic with a different public magic replaces the entry; the three
set-valued indices are preserved unconditionally). -/
theorem register_indices_contain (s s1 : ChainState) (ps : Params) :
    (Register s ps = (s1, none) → indicesContain s1 ps) ∧
    (∀ ps2 : Params, indicesContain s ps →
      ps2.HDPrivateKeyID ≠ ps.HDPrivateKeyID ∨ ps2.HDPublicKeyID = ps.HDPublicKeyID →
      indicesContain (Register s ps2).1 ps) := by
  constructor
  · intro hreg
    unfold Register at hreg
    by_cases hc : ps.Net ∈ s.registeredNets
    · rw [if_pos hc] at hreg
      simp at hreg
    · rw [if_neg hc] at hreg
      injection hreg with h1 h2
      subst h1
      refine ⟨setInsert_contains_self _ _, setInsert_contains_self _ _,
        mem_strSetInsert_self _ _, ?_⟩
      show mapLookup (mapInsert _ _ _) _ = _
      rw [mapLookup_mapInsert, if_pos rfl]
  · intro ps2 hci hcompat
    unfold Register
    by_cases hc : ps2.Net ∈ s.registeredNets
    · rw [if_pos hc]
      exact hci
    · rw [if_neg hc]
      obtain ⟨h1, h2, h3, h4⟩ := hci
      refine ⟨setInsert_contains_mono _ _ _ h1, setInsert_contains_mono _ _ _ h2,
        mem_strSetInsert_mono _ _ _ h3, ?_⟩
      show mapLookup (mapInsert _ _ _) _ = _
      rw [mapLookup_mapInsert]
      rcases hcompat with hne | hpub
      · rw [if_neg hne]
        exact h4
      · by_cases heq : ps2.HDPrivateKeyID = ps.HDPrivateKeyID
        · rw [if_pos heq, hpub]
        · rw [if_neg heq]
          exact h4

/-- Witness for C2 (amended): after registering `paramsHDFirst` on the
empty state its entries are present in all four indices, and they stay
present after a further registration of `MainNetParams` (whose HD private
magic differs). -/
theorem register_indices_contain_witness :
    indicesContain (Register emptyState paramsHDFirst).1 paramsHDFirst ∧
    indicesContain (Register (Register emptyState paramsHDFirst).1 MainNetParams).1
      paramsHDFirst :=
  ⟨(register_indices_contain emptyState (Register emptyState paramsHDFirst).1
      paramsHDFirst).1 (by decide),
   (register_indices_contain (Register emptyState paramsHDFirst).1
      (Register emptyState paramsHDFirst).1 paramsHDFirst).2 MainNetParams
      ((register_indices_contain emptyState (Register emptyState paramsHDFirst).1
        paramsHDFirst).1 (by decide))
      (Or.inl (by decide))⟩

/-- Claim C3: `HDPrivateKeyToPublicKeyID` returns `ErrUnknownHDKeyID` for
every input whose length differs from 4 regardless of content; for a
4-byte input present in the HD index it returns the mapped public magic —
in particular, immediately after a successful registration the registered
HD private magic maps to its HD public magic; and the error is returned
exactly when the length differs from 4 or the 4-byte key has no entry. -/
theorem hdPrivateKeyToPublicKeyID_cases (s s1 : ChainState) (id : List Nat) :
    (id.length ≠ 4 →
      HDPrivateKeyToPublicKeyID s id = Except.error ChainError.ErrUnknownHDKeyID) ∧
    (∀ pub, id.length = 4 → mapLookup s.hdPrivToPubKeyIDs (sliceToKey id) = some pub →
      HDPrivateKeyToPublicKeyID s id = Except.ok pub) ∧
    (HDPrivateKeyToPublicKeyID s id = Except.error ChainError.ErrUnknownHDKeyID ↔
      id.length ≠ 4 ∨ mapLookup s.hdPrivToPubKeyIDs (sliceToKey id) = none) ∧
    (∀ ps : Params, Register s ps = (s1, none) →
      HDPrivateKeyToPublicKeyID s1 ps.HDPrivateKeyID.toSlice =
        Except.ok ps.HDPublicKeyID.toSlice) := by
  refine ⟨?_, ?_, ?_, ?_⟩
  · intro h
    simp [HDPrivateKeyToPublicKeyID, h]
  · intro pub hlen hlook
    simp [HDPrivateKeyToPublicKeyID, hlen, hlook]
  · constructor
    · intro h
      by_cases hlen : id.length = 4
      · rcases hcase : mapLookup s.hdPrivToPubKeyIDs (sliceToKey id) with _ | pub
        · exact Or.inr rfl
        · exfalso
          simp [HDPrivateKeyToPublicKeyID, hlen, hcase] at h
      · exact Or.inl hlen
    · intro h
      rcases h with h | h
      · simp [HDPrivateKeyToPublicKeyID, h]
      · by_cases hlen : id.length = 4
        · simp [HDPrivateKeyToPublicKeyID, hlen, h]
        · simp [HDPrivateKeyToPublicKeyID, hlen]
  · intro ps hreg
    unfold Register at hreg
    by_cases hc : ps.Net ∈ s.registeredNets
    · rw [if_pos hc] at hreg
      simp at hreg
    · rw [if_neg hc] at hreg
      injection hreg with h1 h2
      subst h1
      show HDPrivateKeyToPublicKeyID _ _ = _
      have hlen : ps.HDPrivateKeyID.toSlice.length = 4 := rfl
      simp only [HDPrivateKeyToPublicKeyID, hlen, ne_eq, not_true_eq_false, if_false,
        reduceIte, sliceToKey_toSlice]
      show (match mapLookup (mapInsert _ _ _) ps.HDPrivateKeyID with
        | none => Except.error ChainError.ErrUnknownHDKeyID
        | some pubBytes => Except.ok pubBytes) = _
      rw [mapLookup_mapInsert, if_pos rfl]

/-- Witness for C3: on the post-initialization state, a 3-byte and a
5-byte input fail, the mainnet HD private magic maps to the mainnet HD
public magic, and an unregistered 4-byte key fails. -/
theorem hdPrivateKeyToPublicKeyID_cases_witness :
    HDPrivateKeyToPublicKeyID defaultState [1, 2, 3] =
      Except.error ChainError.ErrUnknownHDKeyID ∧
    HDPrivateKeyToPublicKeyID defaultState [1, 2, 3, 4, 5] =
      Except.error ChainError.ErrUnknownHDKeyID ∧
    HDPrivateKeyToPublicKeyID defaultState [0x04, 0x88, 0xad, 0xe4] =
      Except.ok [0x04, 0x88, 0xb2, 0x1e] ∧
    HDPrivateKeyToPublicKeyID defaultState [7, 7, 7, 7] =
      Except.error ChainError.ErrUnknownHDKeyID :=
  ⟨(hdPrivateKeyToPublicKeyID_cases defaultState defaultState [1, 2, 3]).1 (by decide),
   (hdPrivateKeyToPublicKeyID_cases defaultState defaultState [1, 2, 3, 4, 5]).1 (by decide),
   (hdPrivateKeyToPublicKeyID_cases defaultState defaultState
     [0x04, 0x88, 0xad, 0xe4]).2.1 [0x04, 0x88, 0xb2, 0x1e] (by decide) (by decide),
   (hdPrivateKeyToPublicKeyID_cases defaultState defaultState [7, 7, 7, 7]).2.2.1.mpr
     (Or.inr (by decide))⟩

theorem goToLower_append (a b : String) :
    goToLower (a ++ b) = goToLower a ++ goToLower b := by
  cases a with
  | mk la =>
    cases b with
    | mk lb =>
      show String.mk (((String.mk la ++ String.mk lb).data).map asciiLowerChar) = _
      simp [goToLower, String.data_append]
      rfl

theorem string_ne_append_one (a : String) : a ≠ a ++ "1" := by
  intro h
  have hlen := congrArg String.length h
  rw [String.length_append] at hlen
  have h1 : ("1" : String).length = 1 := rfl
  omega

/-- Counterexample to claim C4: registering a network whose bech32 HRP is
the uppercase string "XY" succeeds and stores the raw entry "XY1", but the
lookup of "XY1" (the prefix itself, hence equal to it up to ASCII case)
lowercases the query and misses the stored entry — stored entries are not
case-normalized and case-insensitivity fails for uppercase HRPs. -/
theorem bech32_upper_hrp_counterexample :
    (Register defaultState paramsUpperHRP).2 = none ∧
    ((Register defaultState paramsUpperHRP).1.bech32SegwitPrefixes).contains
      (paramsUpperHRP.Bech32HRPSegwit ++ "1") = true ∧
    IsBech32SegwitPrefix (Register defaultState paramsUpperHRP).1 ("XY1") = false ∧
    IsBech32SegwitPrefix (Register defaultState paramsUpperHRP).1 ("xy1") = false := by
  decide

/-- Claim C4 (amended): for a registered network whose bech32 HRP consists
only of ASCII characters and contains no uppercase ASCII letters, every
ASCII string that equals the HRP followed by "1" up to ASCII letter case
tests positive (the lookup lowercases the query; the stored entries are
the raw HRP+"1" strings, so case-insensitivity holds only for lowercase
HRPs); the bare HRP without the trailing separator tests negative after
registering the network on the empty state.  The ASCII hypotheses confine
the statement to the domain on which `goToLower` coincides with the full
Unicode lowering performed by Go `strings.ToLower` — for a non-ASCII HRP
such as "Ä" the code stores "Ä1" raw while lowering the query, so even the
exact stored string would miss, just as in the uppercase-ASCII
counterexample. -/
theorem bech32_lookup_lowercases_query (s : ChainState) (ps : Params) (str : String)
    (_hascii : isASCIIString ps.Bech32HRPSegwit)
    (_hstrascii : isASCIIString str)
    (hlow : goToLower ps.Bech32HRPSegwit = ps.Bech32HRPSegwit)
    (hmem : (ps.Bech32HRPSegwit ++ "1") ∈ s.bech32SegwitPrefixes)
    (hstr : goToLower str = goToLower (ps.Bech32HRPSegwit ++ "1")) :
    IsBech32SegwitPrefix s str = true ∧
    IsBech32SegwitPrefix (Register emptyState ps).1 ps.Bech32HRPSegwit = false := by
  have hlow1 : goToLower (ps.Bech32HRPSegwit ++ "1") = ps.Bech32HRPSegwit ++ "1" := by
    rw [goToLower_append, hlow]
    rfl
  constructor
  · show s.bech32SegwitPrefixes.contains (goToLower str) = true
    rw [hstr, hlow1]
    simpa using hmem
  · show ((Register emptyState ps).1.bech32SegwitPrefixes).contains
      (goToLower ps.Bech32HRPSegwit) = false
    have hempty : ps.Net ∉ emptyState.registeredNets := by simp [emptyState]
    show ((if ps.Net ∈ emptyState.registeredNets then _
        else _ : ChainState × Option ChainError)).1.bech32SegwitPrefixes.contains _ = false
    rw [if_neg hempty, hlow]
    show (strSetInsert emptyState.bech32SegwitPrefixes _).contains _ = false
    simp [strSetInsert, emptyState]
    exact string_ne_append_one ps.Bech32HRPSegwit

/-- Witness for C4 (amended): "BC1" matches after initialization (the
mainnet HRP "bc" is ASCII and lowercase), and the bare "bc" does not match
after registering mainnet on the empty state. -/
theorem bech32_lookup_lowercases_query_witness :
    IsBech32SegwitPrefix defaultState ("BC1") = true ∧
    IsBech32SegwitPrefix (Register emptyState MainNetParams).1
      MainNetParams.Bech32HRPSegwit = false :=
  bech32_lookup_lowercases_query defaultState MainNetParams ("BC1")
    (by decide) (by decide) (by decide) (by decide) (by decide)

/-- Counterexample to claim C5: the double-round hash (double SHA-256, as
the spec describes the 80-byte fixed-layout header hash) of the serialized
mainnet genesis header does not reproduce the hardcoded genesis hash, and
the modelled self-check comparison yields false. -/
theorem genesis_double_hash_mismatch :
    doubleHash (serializeBlockHeader genesisBlock.Header) ≠ genesisHash ∧
    genesisSelfCheck = false := by
  decide

/-- Claim C5 (amended): the mainnet genesis header serializes to the
expected fixed 80-byte layout, its double SHA-256 is the concrete digest
5e97...90b1 — a value different from the hardcoded little-endian
`genesisHash` bytes b67a...0000 (which is the X11 header hash of the chain,
not a double SHA-256) — and initialization performs no genesis self-check:
it consists exactly of the three successful network registrations. -/
theorem genesis_double_hash_value :
    (serializeBlockHeader genesisBlock.Header).length = 80 ∧
    doubleHash (serializeBlockHeader genesisBlock.Header) =
      [0x5e, 0x97, 0xa1, 0x2f, 0xd0, 0x9b, 0x6c, 0x82,
       0x21, 0x17, 0x7f, 0xee, 0xe8, 0xc1, 0xe3, 0x56,
       0x21, 0x79, 0xe0, 0x9e, 0xcb, 0x79, 0x10, 0xa2,
       0xf5, 0xab, 0xcd, 0x0e, 0x2a, 0xc5, 0x90, 0xb1] ∧
    genesisHash =
      [0xb6, 0x7a, 0x40, 0xf3, 0xcd, 0x58, 0x04, 0x43,
       0x7a, 0x10, 0x8f, 0x10, 0x55, 0x33, 0x73, 0x9c,
       0x37, 0xe6, 0x22, 0x9b, 0xc1, 0xad, 0xca, 0xb3,
       0x85, 0x14, 0x0b, 0x59, 0xfd, 0x0f, 0x00, 0x00] ∧
    initState = some defaultState := by
  refine ⟨rfl, by decide, rfl, by decide⟩

end Godash
